import Mathlib

/-!
Verification of the mikrotik-collector on-demand telemetry engine.

Shallow embedding of the Go sources into Lean 4.  Strings from the Go code
are modelled as `List Char`; the loosely-typed MikroTik protocol maps
(`map[string]string`) are modelled as association lists.  Each definition
carries a comment pointing at the Go function it embeds.
-/

set_option maxRecDepth 4000

/-- A MikroTik protocol key/value map (`map[string]string` in the source). -/
abbrev RMap : Type := List (List Char × List Char)

/-- Lookup with the Go zero-value default: `m["key"]` yields `""` when absent. -/
def lookupD (m : RMap) (k : List Char) : List Char :=
  match m with
  | [] => []
  | (k', v) :: rest => if k' = k then v else lookupD rest k

/-- Lookup reporting presence (`v, ok := m["key"]` in the source). -/
def lookupOpt (m : RMap) (k : List Char) : Option (List Char) :=
  match m with
  | [] => none
  | (k', v) :: rest => if k' = k then some v else lookupOpt rest k

/-- Contiguous-substring test, the model of Go `strings.Contains`. -/
def containsSub (hay needle : List Char) : Bool :=
  match hay with
  | [] => needle.isEmpty
  | _ :: t => needle.isPrefixOf hay || containsSub t needle

/-- Model of Go `strings.ToLower` (character-wise). -/
def toLowerChars (s : List Char) : List Char := s.map Char.toLower

/-- Model of Go `strings.TrimSpace`. -/
def trimSpaceChars (s : List Char) : List Char :=
  ((s.dropWhile Char.isWhitespace).reverse.dropWhile Char.isWhitespace).reverse

/-! ## Device Link (src/unnamed/part_001, `Client`) -/

/-- A `*routeros.Reply`: the list of `!re` sentences. -/
def Reply : Type := List RMap

/-- `isConnectionError` (part_001 lines 100-107): the fixed set of transient
connection-level error signatures, tested by substring. -/
def isConnectionError (msg : List Char) : Bool :=
  containsSub msg "loop has ended".data ||
  containsSub msg "closed network connection".data ||
  containsSub msg "broken pipe".data ||
  containsSub msg "use of closed network connection".data ||
  containsSub msg "EOF".data

/-- `Client.Run` (part_001 lines 84-98).  The underlying transport is modelled
by the outcome of the first `c.Client.Run` call, the outcome of `Reconnect`,
and the outcome of the retried `c.Client.Run` call.  The second component
counts how many times the command was executed. -/
def clientRun (first : Except (List Char) Reply) (reconnectOk : Bool)
    (retry : Except (List Char) Reply) : Except (List Char) Reply × Nat :=
  match first with
  | .ok r => (.ok r, 1)
  | .error e =>
    if isConnectionError e then
      if reconnectOk then (retry, 2)
      else (.error e, 1)
    else (.error e, 1)

/-! ## PPPoE interface-name encoding (part_006 lines 173-185, part_007 lines 461-474) -/

/-- The `"<pppoe-"` marker that opens an encoded PPPoE interface name. -/
def pppoeTag : List Char := ['<', 'p', 'p', 'p', 'o', 'e', '-']

/-- `extractPPPoEUsername`: for names of the form `<pppoe-username>` return the
username, otherwise return `""`.  Mirrors the Go checks: length at least 9,
prefix `"<pppoe-"`, suffix `">"`, and the slice `s[7 : len(s)-1]`. -/
def extractPPPoEUsername (s : List Char) : List Char :=
  if 9 ≤ s.length ∧ s.take 7 = pppoeTag ∧ s.getLast? = some '>' then
    (s.drop 7).dropLast
  else []

/-- The interface-matching loop of `getActiveInterfaceForCustomer`
(part_006 lines 147-168): scan the `!re` sentences, skip entries whose name is
empty or whose extracted username is empty, return the first name whose
normalized extracted username equals the normalized target username. -/
def findInterface (username : List Char) (res : List RMap) : Option (List Char) :=
  match res with
  | [] => none
  | re :: rest =>
    let name := lookupD re "name".data
    if name = [] then findInterface username rest
    else
      let extracted := extractPPPoEUsername name
      if extracted = [] then findInterface username rest
      else if toLowerChars (trimSpaceChars extracted) = username then some name
      else findInterface username rest

/-- Resolution failure modes surfaced by `StartMonitoring` (part_006 82-118). -/
inductive ResErr where
  | customerNotFound
  | noPPPoEUsername
  | queryFailed
  | noActiveSession
  | notConnected
deriving DecidableEq, Repr

/-- `getActiveInterfaceForCustomer` (part_006 lines 129-171): normalize the
username, query the device (`reply` models the `/interface/print` result), and
search the replies; no match is an error. -/
def getActiveInterfaceForCustomer (pppoeUsername : List Char)
    (reply : Except Unit (List RMap)) : Except ResErr (List Char) :=
  if pppoeUsername = [] then .error .noPPPoEUsername
  else
    let username := toLowerChars (trimSpaceChars pppoeUsername)
    match reply with
    | .error _ => .error .queryFailed
    | .ok res =>
      match findInterface username res with
      | some name => .ok name
      | none => .error .noActiveSession

/-- The subscriber record (part_003 / part_007 `Customer`), restricted to the
fields the monitored paths read. -/
structure Customer where
  id : List Char
  name : List Char
  username : List Char
  serviceType : List Char
  pppoeUsername : Option (List Char)
deriving DecidableEq, Repr

/-- The resolution pipeline of `StartMonitoring` (part_006 lines 82-102):
customer lookup, PPPoE-username validation, active-interface lookup, and the
empty-interface check. -/
def resolveCustomerInterface (cust : Option Customer)
    (reply : Except Unit (List RMap)) : Except ResErr (List Char) :=
  match cust with
  | none => .error .customerNotFound
  | some c =>
    match c.pppoeUsername with
    | none => .error .noPPPoEUsername
    | some u =>
      if u = [] then .error .noPPPoEUsername
      else
        match getActiveInterfaceForCustomer u reply with
        | .error e => .error e
        | .ok iface => if iface = [] then .error .notConnected else .ok iface

/-! ## Theorems for claim C10 -/

/-- Claim C10: round-trip of the PPPoE interface-name encoding.  For every
non-empty username `u`, `extractPPPoEUsername ("<pppoe-" ++ u ++ ">")` is
exactly `u`; `extractPPPoEUsername` returns `""` exactly on the strings that
fail one of the three shape checks (length at least 9, prefix `"<pppoe-"`,
trailing `'>'`); and the interface-matching code skips an entry whose
extraction is empty. -/
theorem extractPPPoEUsername_roundtrip :
    (∀ u : List Char, u ≠ [] →
      extractPPPoEUsername (pppoeTag ++ u ++ ['>']) = u) ∧
    (∀ s : List Char,
      extractPPPoEUsername s = [] ↔
        ¬(9 ≤ s.length ∧ s.take 7 = pppoeTag ∧ s.getLast? = some '>')) ∧
    (∀ username re rest,
      extractPPPoEUsername (lookupD re "name".data) = [] →
      findInterface username (re :: rest) = findInterface username rest) := by
  refine ⟨?_, ?_, ?_⟩
  · intro u hu
    have hlen : (pppoeTag ++ u ++ ['>']).length = u.length + 8 := by
      simp [pppoeTag]
    have hcond : 9 ≤ (pppoeTag ++ u ++ ['>']).length ∧
        (pppoeTag ++ u ++ ['>']).take 7 = pppoeTag ∧
        (pppoeTag ++ u ++ ['>']).getLast? = some '>' := by
      refine ⟨?_, ?_, ?_⟩
      · have : 1 ≤ u.length := List.length_pos.mpr hu
        omega
      · have h7 : pppoeTag.length = 7 := by simp [pppoeTag]
        calc (pppoeTag ++ u ++ ['>']).take 7
            = (pppoeTag ++ (u ++ ['>'])).take pppoeTag.length := by
              rw [h7, List.append_assoc]
          _ = pppoeTag := List.take_left pppoeTag (u ++ ['>'])
      · rw [List.append_assoc]
        rw [show u ++ ['>'] = u.concat '>' by simp]
        simp [List.getLast?_concat]
    rw [extractPPPoEUsername, if_pos hcond]
    have hdrop : (pppoeTag ++ u ++ ['>']).drop 7 = u ++ ['>'] := by
      have h7 : pppoeTag.length = 7 := by simp [pppoeTag]
      calc (pppoeTag ++ u ++ ['>']).drop 7
          = (pppoeTag ++ (u ++ ['>'])).drop pppoeTag.length := by
            rw [h7, List.append_assoc]
        _ = u ++ ['>'] := List.drop_left pppoeTag (u ++ ['>'])
    rw [hdrop]
    simp
  · intro s
    constructor
    · intro hempty
      intro hcond
      rw [extractPPPoEUsername, if_pos hcond] at hempty
      have hlen : ((s.drop 7).dropLast).length = s.length - 8 := by
        simp [List.length_dropLast, List.length_drop]
        omega
      have : s.length - 8 = 0 := by rw [← hlen, hempty]; rfl
      omega
    · intro hcond
      rw [extractPPPoEUsername, if_neg hcond]
  · intro username re rest hskip
    rw [findInterface]
    by_cases hname : lookupD re "name".data = []
    · simp [hname]
    · simp only [hname, if_neg hname, hskip]
      simp

/-- Witness for C10 at a concrete input: the encoded name `<pppoe-alice>`
decodes to `alice`. -/
theorem extractPPPoEUsername_roundtrip_witness :
    extractPPPoEUsername (pppoeTag ++ "alice".data ++ ['>']) = "alice".data :=
  extractPPPoEUsername_roundtrip.1 "alice".data (by decide)

/-! ## Theorems for claim C3 (Device Link retry policy) -/

/-- Claim C3: `Client.Run` executes a command at most twice; a success on the
first attempt is returned as-is; a transient first error with a successful
reconnect yields exactly the retry's result (second execution); a permanent
first error, or a failed reconnect, returns the original error without retry. -/
theorem clientRun_retry_policy :
    ∀ (first : Except (List Char) Reply) (rok : Bool)
      (retry : Except (List Char) Reply),
      (clientRun first rok retry).2 ≤ 2 ∧
      (∀ r, first = .ok r → clientRun first rok retry = (.ok r, 1)) ∧
      (∀ e, first = .error e → isConnectionError e = true → rok = true →
        clientRun first rok retry = (retry, 2)) ∧
      (∀ e, first = .error e → isConnectionError e = false →
        clientRun first rok retry = (.error e, 1)) ∧
      (∀ e, first = .error e → rok = false →
        clientRun first rok retry = (.error e, 1)) := by
  intro first rok retry
  refine ⟨?_, ?_, ?_, ?_, ?_⟩
  · cases first with
    | ok r => simp [clientRun]
    | error e =>
      by_cases h : isConnectionError e <;> cases rok <;> simp [clientRun, h]
  · intro r hr
    subst hr
    rfl
  · intro e he htrans hrok
    subst he
    subst hrok
    simp [clientRun, htrans]
  · intro e he htrans
    subst he
    simp [clientRun, htrans]
  · intro e he hrok
    subst he
    subst hrok
    by_cases h : isConnectionError e <;> simp [clientRun, h]

/-- Witness for C3: an `"EOF"` error is transient, so with a successful
reconnect the retry's result (here a success) is returned after exactly two
executions. -/
theorem clientRun_retry_policy_witness :
    clientRun (.error "EOF".data) true (.ok ([] : Reply)) = (.ok ([] : Reply), 2) :=
  (clientRun_retry_policy (.error "EOF".data) true (.ok ([] : Reply))).2.2.1
    "EOF".data rfl (by decide) rfl

/-! ## Durable bus consumer (src/redis_stream_consumer.go, `RedisStreamConsumer.Start`) -/

/-- Per-entry body of the consumer loop (redis_stream_consumer.go lines 76-92).
`validJson` models `json.Unmarshal` succeeding on the payload.  The result is
(the payload forwarded to the broadcast channel, if any; whether `XAck` was
executed for this entry).  Note the Go `continue` on invalid JSON jumps past
the `XAck` call at the end of the loop body. -/
def consumeStreamEntry (validJson : List Char → Bool) (values : RMap) :
    Option (List Char) × Bool :=
  match lookupOpt values "data".data with
  | some d => if validJson d then (some d, true) else (none, false)
  | none => (none, true)

/-- Claim C2 (code divergence): an entry whose `data` field fails JSON
validation is skipped (not forwarded to the broadcast channel) but is NOT
acknowledged: the `continue` skips the `XAck` call, so the poison entry stays
in the consumer group's pending list.  Evaluated at a concrete poison entry. -/
theorem consumeStreamEntry_poison_not_acked :
    consumeStreamEntry (fun _ => false) [("data".data, "x".data)] = (none, false) := by
  rfl

/-! ## Broadcast Hub (src/internal/handlers/customer_handler.go, `Broadcaster`) -/

/-- A registered WebSocket connection; `writeFails` is the outcome of
`WriteMessage` on it for the message being broadcast. -/
structure WsConn where
  cid : Nat
  writeFails : Bool
deriving DecidableEq, Repr

/-- Observable effects of one broadcast pass. -/
inductive HubEv where
  | wrote (cid : Nat)
  | closedConn (cid : Nat)
deriving DecidableEq, Repr

/-- One pass of `WebSocketHandler.Broadcaster` (customer_handler.go lines
230-251) over the registered connections for a single message: write the
message to every connection; a write failure closes and deletes that
connection and iteration continues with the rest. -/
def broadcastOnce : List WsConn → List WsConn × List HubEv
  | [] => ([], [])
  | c :: rest =>
    let (remaining, evs) := broadcastOnce rest
    if c.writeFails then (remaining, .closedConn c.cid :: evs)
    else (c :: remaining, .wrote c.cid :: evs)

/-- Claim C7: after a broadcast, the registered set is exactly the connections
whose write succeeded; every connection with a successful write received the
message; every connection whose write failed was closed and removed during the
same broadcast, without aborting delivery to the others. -/
lemma broadcastOnce_fst :
    ∀ conns : List WsConn,
      (broadcastOnce conns).1 = conns.filter (fun c => !c.writeFails) := by
  intro conns
  induction conns with
  | nil => rfl
  | cons c rest ih => cases hw : c.writeFails <;> simp [broadcastOnce, hw, ih]

lemma broadcastOnce_snd :
    ∀ conns : List WsConn,
      (broadcastOnce conns).2 = conns.map
        (fun c => if c.writeFails then HubEv.closedConn c.cid else HubEv.wrote c.cid) := by
  intro conns
  induction conns with
  | nil => rfl
  | cons c rest ih => cases hw : c.writeFails <;> simp [broadcastOnce, hw, ih]

theorem broadcastOnce_isolates_failures :
    ∀ conns : List WsConn,
      (broadcastOnce conns).1 = conns.filter (fun c => !c.writeFails) ∧
      (∀ c ∈ conns, c.writeFails = false →
        HubEv.wrote c.cid ∈ (broadcastOnce conns).2) ∧
      (∀ c ∈ conns, c.writeFails = true →
        HubEv.closedConn c.cid ∈ (broadcastOnce conns).2 ∧
          c ∉ (broadcastOnce conns).1) := by
  intro conns
  refine ⟨broadcastOnce_fst conns, ?_, ?_⟩
  · intro c hc hw
    rw [broadcastOnce_snd]
    exact List.mem_map.mpr ⟨c, hc, by simp [hw]⟩
  · intro c hc hw
    refine ⟨?_, ?_⟩
    · rw [broadcastOnce_snd]
      exact List.mem_map.mpr ⟨c, hc, by simp [hw]⟩
    · rw [broadcastOnce_fst]
      intro hmem
      have := (List.mem_filter.mp hmem).2
      simp [hw] at this

/-- Witness for C7 at a concrete connection set: connection 1 succeeds and
receives the message, connection 2 fails, is closed and evicted. -/
theorem broadcastOnce_isolates_failures_witness :
    HubEv.wrote 1 ∈ (broadcastOnce [⟨1, false⟩, ⟨2, true⟩]).2 ∧
      HubEv.closedConn 2 ∈ (broadcastOnce [⟨1, false⟩, ⟨2, true⟩]).2 ∧
      (⟨2, true⟩ : WsConn) ∉ (broadcastOnce [⟨1, false⟩, ⟨2, true⟩]).1 :=
  ⟨(broadcastOnce_isolates_failures [⟨1, false⟩, ⟨2, true⟩]).2.1 ⟨1, false⟩
      (by decide) rfl,
    ((broadcastOnce_isolates_failures [⟨1, false⟩, ⟨2, true⟩]).2.2 ⟨2, true⟩
      (by decide) rfl).1,
    ((broadcastOnce_isolates_failures [⟨1, false⟩, ⟨2, true⟩]).2.2 ⟨2, true⟩
      (by decide) rfl).2⟩

/-! ## Traffic stream parsing (src/unnamed/part_002, `MonitorTraffic`) -/

/-- `InterfaceTraffic` (part_002 lines 8-29). -/
structure InterfaceTraffic where
  name : List Char
  rxPacketsPerSecond : List Char
  rxBitsPerSecond : List Char
  fpRxPacketsPerSecond : List Char
  fpRxBitsPerSecond : List Char
  rxDropsPerSecond : List Char
  rxErrorsPerSecond : List Char
  txPacketsPerSecond : List Char
  txBitsPerSecond : List Char
  fpTxPacketsPerSecond : List Char
  fpTxBitsPerSecond : List Char
  txDropsPerSecond : List Char
  txQueueDropsPerSecond : List Char
  txErrorsPerSecond : List Char
  trafficSection : List Char
deriving DecidableEq, Repr

/-- `mapToInterfaceTraffic` (part_002 lines 85-108). -/
def mapToInterfaceTraffic (m : RMap) : InterfaceTraffic where
  name := lookupD m "name".data
  rxPacketsPerSecond := lookupD m "rx-packets-per-second".data
  rxBitsPerSecond := lookupD m "rx-bits-per-second".data
  fpRxPacketsPerSecond := lookupD m "fp-rx-packets-per-second".data
  fpRxBitsPerSecond := lookupD m "fp-rx-bits-per-second".data
  rxDropsPerSecond := lookupD m "rx-drops-per-second".data
  rxErrorsPerSecond := lookupD m "rx-errors-per-second".data
  txPacketsPerSecond := lookupD m "tx-packets-per-second".data
  txBitsPerSecond := lookupD m "tx-bits-per-second".data
  fpTxPacketsPerSecond := lookupD m "fp-tx-packets-per-second".data
  fpTxBitsPerSecond := lookupD m "fp-tx-bits-per-second".data
  txDropsPerSecond := lookupD m "tx-drops-per-second".data
  txQueueDropsPerSecond := lookupD m "tx-queue-drops-per-second".data
  txErrorsPerSecond := lookupD m "tx-errors-per-second".data
  trafficSection := lookupD m ".section".data

/-- A frame pushed by the device on an open stream: the sentence may be `nil`,
may carry no key/value map (heartbeat), or may carry a payload map. -/
inductive Frame where
  | nilSentence
  | noMap
  | withMap (m : RMap)
deriving DecidableEq, Repr

/-- The payload of a frame, when present. -/
def framePayload : Frame → Option RMap
  | .nilSentence => none
  | .noMap => none
  | .withMap m => some m

/-- The forwarding goroutine of `MonitorTraffic` (part_002 lines 61-79): frames
with `r == nil` or `r.Map == nil` are skipped; every other frame is parsed and
delivered on the sample channel, in order. -/
def monitorTrafficDeliver (frames : List Frame) : List InterfaceTraffic :=
  frames.filterMap (fun f =>
    match f with
    | .nilSentence => none
    | .noMap => none
    | .withMap m => some (mapToInterfaceTraffic m))

/-- `CustomerTrafficData` (part_007 lines 42-55). -/
structure CustomerTrafficData where
  customerID : List Char
  customerName : List Char
  username : List Char
  serviceType : List Char
  interfaceName : List Char
  rxBitsPerSecond : List Char
  txBitsPerSecond : List Char
  rxPacketsPerSecond : List Char
  txPacketsPerSecond : List Char
  downloadSpeed : List Char
  uploadSpeed : List Char
  timestamp : Nat
deriving DecidableEq, Repr

/-- `formatSpeed` (part_006 lines 398-405). -/
def formatSpeed (bps : List Char) : List Char :=
  if bps = [] ∨ bps = "0".data then "0 bps".data else bps ++ " bps".data

/-- `mapToCustomerTraffic` (part_006 lines 360-375); `now` models `time.Now()`. -/
def mapToCustomerTraffic (c : Customer) (t : InterfaceTraffic) (now : Nat) :
    CustomerTrafficData where
  customerID := c.id
  customerName := c.name
  username := c.username
  serviceType := c.serviceType
  interfaceName := t.name
  rxBitsPerSecond := t.rxBitsPerSecond
  txBitsPerSecond := t.txBitsPerSecond
  rxPacketsPerSecond := t.rxPacketsPerSecond
  txPacketsPerSecond := t.txPacketsPerSecond
  downloadSpeed := formatSpeed t.rxBitsPerSecond
  uploadSpeed := formatSpeed t.txBitsPerSecond
  timestamp := now

/-- The per-sample body of `processTrafficStream` (part_006 lines 304-330)
over the list of samples received before the channel closes: samples with an
empty interface name are discarded (a warning is logged), all others are
mapped and handed to `publishTrafficData`.  The result lists the published
records in order. -/
def processTrafficStreamPub (c : Customer) (now : Nat) :
    List InterfaceTraffic → List CustomerTrafficData
  | [] => []
  | t :: rest =>
    if t.name = [] then processTrafficStreamPub c now rest
    else mapToCustomerTraffic c t now :: processTrafficStreamPub c now rest

/-! ## Theorems for claim C9 -/

/-- Claim C9: frames whose payload map is nil or absent are silently skipped
and never delivered; the delivered samples are exactly the parses of the
frames carrying a payload map, in order; downstream, the monitor loop discards
samples with an empty interface name and publishes exactly the rest. -/
theorem monitorTraffic_skips_heartbeats :
    (∀ frames : List Frame,
      monitorTrafficDeliver frames =
        (frames.filterMap framePayload).map mapToInterfaceTraffic) ∧
    (∀ frames : List Frame, (∀ f ∈ frames, framePayload f = none) →
      monitorTrafficDeliver frames = []) ∧
    (∀ frames : List Frame, ∀ t ∈ monitorTrafficDeliver frames,
      ∃ m, Frame.withMap m ∈ frames ∧ t = mapToInterfaceTraffic m) ∧
    (∀ c now samples, processTrafficStreamPub c now samples =
      (samples.filter (fun t => decide (t.name ≠ []))).map
        (fun t => mapToCustomerTraffic c t now)) ∧
    (∀ c now samples, ∀ d ∈ processTrafficStreamPub c now samples,
      ∃ t, t ∈ samples ∧ t.name ≠ [] ∧ d = mapToCustomerTraffic c t now) := by
  have hdeliver : ∀ frames : List Frame,
      monitorTrafficDeliver frames =
        (frames.filterMap framePayload).map mapToInterfaceTraffic := by
    intro frames
    induction frames with
    | nil => rfl
    | cons f rest ih =>
      cases f <;> simp [monitorTrafficDeliver, framePayload, List.filterMap_cons] <;>
        simpa [monitorTrafficDeliver] using ih
  have hpub : ∀ c now samples, processTrafficStreamPub c now samples =
      (samples.filter (fun t => decide (t.name ≠ []))).map
        (fun t => mapToCustomerTraffic c t now) := by
    intro c now samples
    induction samples with
    | nil => rfl
    | cons t rest ih =>
      by_cases hn : t.name = [] <;> simp [processTrafficStreamPub, hn, ih]
  refine ⟨hdeliver, ?_, ?_, hpub, ?_⟩
  · intro frames hall
    rw [hdeliver]
    have : frames.filterMap framePayload = [] := by
      rw [List.filterMap_eq_nil_iff]
      intro f hf
      simp [hall f hf]
    rw [this]
    rfl
  · intro frames t ht
    rw [hdeliver frames] at ht
    obtain ⟨m, hm, rfl⟩ := List.mem_map.mp ht
    obtain ⟨f, hf, hpay⟩ := List.mem_filterMap.mp hm
    refine ⟨m, ?_, rfl⟩
    cases f with
    | nilSentence => simp [framePayload] at hpay
    | noMap => simp [framePayload] at hpay
    | withMap m' => simp [framePayload] at hpay; rwa [hpay] at hf
  · intro c now samples d hd
    rw [hpub] at hd
    obtain ⟨t, ht, rfl⟩ := List.mem_map.mp hd
    obtain ⟨hmem, hname⟩ := List.mem_filter.mp ht
    exact ⟨t, hmem, by simpa using hname, rfl⟩

/-- Witness for C9: a stream of one nil sentence and one heartbeat delivers no
sample, and a sample with a non-empty interface name is published. -/
theorem monitorTraffic_skips_heartbeats_witness :
    monitorTrafficDeliver [Frame.nilSentence, Frame.noMap] = [] ∧
      (∃ t, t ∈ [mapToInterfaceTraffic [("name".data, "e1".data)]] ∧
        t.name ≠ [] ∧
        mapToCustomerTraffic ⟨"c1".data, "n".data, "u".data, "pppoe".data, none⟩ t 5 =
          mapToCustomerTraffic ⟨"c1".data, "n".data, "u".data, "pppoe".data, none⟩ t 5) :=
  ⟨monitorTraffic_skips_heartbeats.2.1 [Frame.nilSentence, Frame.noMap] (by decide),
    by
      obtain ⟨t, h1, h2, h3⟩ := monitorTraffic_skips_heartbeats.2.2.2.2
        ⟨"c1".data, "n".data, "u".data, "pppoe".data, none⟩ 5
        [mapToInterfaceTraffic [("name".data, "e1".data)]]
        (mapToCustomerTraffic ⟨"c1".data, "n".data, "u".data, "pppoe".data, none⟩
          (mapToInterfaceTraffic [("name".data, "e1".data)]) 5)
        (by simp [processTrafficStreamPub, mapToInterfaceTraffic, lookupD])
      exact ⟨t, h1, h2, rfl⟩⟩

/-! ## Sample fan-out (part_006, `addObserver` and `publishTrafficData`) -/

/-- An observer channel: a bounded buffer plus a closed flag.  `oid` names the
channel (each `addObserver` call makes a fresh one). -/
structure ObsChan where
  oid : Nat
  buf : List CustomerTrafficData
  cap : Nat
  closed : Bool
deriving DecidableEq, Repr

/-- The channel created by `addObserver` (part_006 line 342):
`make(chan domain.CustomerTrafficData, 50)`. -/
def mkObserverChan (oid : Nat) : ObsChan where
  oid := oid
  buf := []
  cap := 50
  closed := false

/-- The non-blocking send (`select { case ch <- data: default: }`,
part_006 lines 388-392): deliver when the buffer has free space, otherwise
drop the sample for this observer only. -/
def trySendObs (c : ObsChan) (d : CustomerTrafficData) : ObsChan :=
  if c.buf.length < c.cap then { c with buf := c.buf ++ [d] } else c

/-- Observable effect of the bus publish inside `publishTrafficData`. -/
inductive FanEv where
  | publishToStream (streamKey : List Char) (payload : CustomerTrafficData)
deriving DecidableEq, Repr

/-- The durable-bus stream key used by `publishTrafficData` (part_006 line 380). -/
def trafficStreamKey : List Char := "mikrotik:traffic:customers".data

/-- `publishTrafficData` (part_006 lines 377-395): publish the sample to the
durable bus first, then non-blocking-send it to every observer of the sample's
monitor (when one is registered). -/
def publishTrafficData (monitorObs : Option (List ObsChan))
    (d : CustomerTrafficData) : Option (List ObsChan) × List FanEv :=
  let evs := [FanEv.publishToStream trafficStreamKey d]
  match monitorObs with
  | none => (none, evs)
  | some obs => (some (obs.map (fun c => trySendObs c d)), evs)

/-! ## Theorems for claim C6 -/

/-- Claim C6: on a broadcast, each observer with free buffer space receives the
sample appended to its buffer, each full observer drops it unchanged; each
observer's outcome depends on its own buffer only, so a full observer never
affects the others; the bus publish happens regardless of observer state; and
the observer buffer capacity is the fixed constant 50. -/
theorem publishTrafficData_nonblocking :
    (∀ obs d, publishTrafficData (some obs) d =
      (some (obs.map (fun c => trySendObs c d)),
        [FanEv.publishToStream trafficStreamKey d])) ∧
    (∀ c d, c.buf.length < c.cap →
      trySendObs c d = { c with buf := c.buf ++ [d] }) ∧
    (∀ c d, ¬ c.buf.length < c.cap → trySendObs c d = c) ∧
    (∀ pre post c d, ¬ c.buf.length < c.cap →
      (publishTrafficData (some (pre ++ c :: post)) d).1 =
        some ((pre.map (fun x => trySendObs x d)) ++
          c :: (post.map (fun x => trySendObs x d)))) ∧
    (∀ mo d, (publishTrafficData mo d).2 =
      [FanEv.publishToStream trafficStreamKey d]) ∧
    (∀ n, (mkObserverChan n).cap = 50) := by
  refine ⟨fun obs d => rfl, ?_, ?_, ?_, ?_, fun n => rfl⟩
  · intro c d h
    simp [trySendObs, h]
  · intro c d h
    simp [trySendObs, h]
  · intro pre post c d h
    simp [publishTrafficData, trySendObs, h]
  · intro mo d
    cases mo <;> rfl

/-- Witness for C6: with one empty observer and one zero-capacity observer,
the first receives the sample, the second drops it, and the bus publish event
is emitted. -/
theorem publishTrafficData_nonblocking_witness :
    trySendObs (mkObserverChan 1)
        ⟨[], [], [], [], [], [], [], [], [], [], [], 0⟩ =
      { mkObserverChan 1 with
          buf := [⟨[], [], [], [], [], [], [], [], [], [], [], 0⟩] } ∧
    trySendObs ⟨2, [], 0, false⟩
        ⟨[], [], [], [], [], [], [], [], [], [], [], 0⟩ = ⟨2, [], 0, false⟩ ∧
    (publishTrafficData none ⟨[], [], [], [], [], [], [], [], [], [], [], 0⟩).2 =
      [FanEv.publishToStream trafficStreamKey
        ⟨[], [], [], [], [], [], [], [], [], [], [], 0⟩] :=
  ⟨publishTrafficData_nonblocking.2.1 (mkObserverChan 1)
      ⟨[], [], [], [], [], [], [], [], [], [], [], 0⟩ (by decide),
    publishTrafficData_nonblocking.2.2.1 ⟨2, [], 0, false⟩
      ⟨[], [], [], [], [], [], [], [], [], [], [], 0⟩ (by decide),
    publishTrafficData_nonblocking.2.2.2.2.1 none
      ⟨[], [], [], [], [], [], [], [], [], [], [], 0⟩⟩

/-! ## Monitor restart loop (part_006, `runMonitorLoop`) -/

/-- `maxRestarts` (part_006 line 227). -/
def maxRestarts : Nat := 3

/-- `restartDelay` (part_006 line 228), in seconds. -/
def restartDelaySeconds : Nat := 5

/-- What an open attempt does in the scenario of claim C1: either
`MonitorTraffic` returns an error, or it succeeds and the stream closes
immediately (channel closed before any sample). -/
inductive AttemptOutcome where
  | openFailed
  | streamClosed
deriving DecidableEq, Repr

/-- The loop-relevant state: whether the monitor is still in `activeMonitors`,
its restart counter, and its observer channels. -/
structure LoopSt where
  registered : Bool
  restartCount : Nat
  observers : List ObsChan
deriving DecidableEq, Repr

/-- Observable events of the monitor loop. -/
inductive LoopEv where
  | openAttempt
  | streamEnded
  | restartIncr
  | backoffSleep (seconds : Nat)
  | cancelMonitor
  | removeFromRegistry
  | offerFinal (oid : Nat) (delivered : Bool)
  | closeObserver (oid : Nat)
deriving DecidableEq, Repr

/-- The best-effort disconnection notice sent on teardown (part_006 lines
252-258): only `CustomerID`, `CustomerName` and `Timestamp` are set, all
traffic fields are Go zero values. -/
def disconnectSentinel (c : Customer) (now : Nat) : CustomerTrafficData :=
  ⟨c.id, c.name, [], [], [], [], [], [], [], [], [], now⟩

/-- Per-observer teardown (part_006 lines 251-261): a non-blocking send of the
sentinel sample followed by `close(ch)`. -/
def offerFinalAndClose (d : CustomerTrafficData) (c : ObsChan) : ObsChan :=
  if c.buf.length < c.cap then { c with buf := c.buf ++ [d], closed := true }
  else { c with closed := true }

/-- The events of the per-observer teardown loop. -/
def teardownEvents (_d : CustomerTrafficData) (obs : List ObsChan) : List LoopEv :=
  obs.flatMap (fun c =>
    [LoopEv.offerFinal c.oid (decide (c.buf.length < c.cap)),
     LoopEv.closeObserver c.oid])

/-- The events of one failing loop iteration (part_006 lines 267-298): the
open attempt, the stream-closed detection when the open succeeded, the
restart-counter increment, and the 5-second backoff sleep. -/
def monitorIterEvents : AttemptOutcome → List LoopEv
  | .openFailed =>
    [.openAttempt, .restartIncr, .backoffSleep restartDelaySeconds]
  | .streamClosed =>
    [.openAttempt, .streamEnded, .restartIncr, .backoffSleep restartDelaySeconds]

/-- `runMonitorLoop` (part_006 lines 226-301) in the scenario where every open
attempt fails or every opened stream closes immediately (`outcome i` is the
fate of attempt `i`) and the context is never cancelled.  Fuel-indexed; `none`
means the fuel ran out before the loop returned.  Each iteration first checks
the registry and the restart counter (tearing the monitor down at
`maxRestarts`), then attempts the open, increments the counter and sleeps. -/
def runMonitorLoop (outcome : Nat → AttemptOutcome) (sentinel : CustomerTrafficData) :
    Nat → Nat → LoopSt → Option (LoopSt × List LoopEv)
  | _, 0, _ => none
  | i, fuel + 1, st =>
    if st.registered = false then some (st, [])
    else if maxRestarts ≤ st.restartCount then
      some ({ st with
                registered := false,
                observers := st.observers.map (offerFinalAndClose sentinel) },
        [LoopEv.cancelMonitor, LoopEv.removeFromRegistry] ++
          teardownEvents sentinel st.observers)
    else
      match runMonitorLoop outcome sentinel (i + 1) fuel
          { st with restartCount := st.restartCount + 1 } with
      | none => none
      | some (stf, evs) => some (stf, monitorIterEvents (outcome i) ++ evs)

lemma teardownEvents_count_openAttempt (d : CustomerTrafficData) :
    ∀ obs : List ObsChan, (teardownEvents d obs).count LoopEv.openAttempt = 0 := by
  intro obs
  induction obs with
  | nil => rfl
  | cons c rest ih => simp [teardownEvents, List.count_append] at ih ⊢; exact ih

lemma teardownEvents_count_restartIncr (d : CustomerTrafficData) :
    ∀ obs : List ObsChan, (teardownEvents d obs).count LoopEv.restartIncr = 0 := by
  intro obs
  induction obs with
  | nil => rfl
  | cons c rest ih => simp [teardownEvents, List.count_append] at ih ⊢; exact ih

lemma teardownEvents_count_backoffSleep (d : CustomerTrafficData) :
    ∀ obs : List ObsChan,
      (teardownEvents d obs).count (LoopEv.backoffSleep restartDelaySeconds) = 0 := by
  intro obs
  induction obs with
  | nil => rfl
  | cons c rest ih => simp [teardownEvents, List.count_append] at ih ⊢; exact ih

lemma monitorIterEvents_counts (k : AttemptOutcome) :
    (monitorIterEvents k).count LoopEv.openAttempt = 1 ∧
      (monitorIterEvents k).count LoopEv.restartIncr = 1 ∧
      (monitorIterEvents k).count (LoopEv.backoffSleep restartDelaySeconds) = 1 := by
  cases k <;> refine ⟨?_, ?_, ?_⟩ <;> rfl

lemma runMonitorLoop_mono (outcome : Nat → AttemptOutcome)
    (sentinel : CustomerTrafficData) :
    ∀ fuel i st st' evs,
      runMonitorLoop outcome sentinel i fuel st = some (st', evs) →
      st.restartCount ≤ st'.restartCount := by
  intro fuel
  induction fuel with
  | zero => intro i st st' evs h; simp [runMonitorLoop] at h
  | succ f ih =>
    intro i st st' evs h
    rw [runMonitorLoop] at h
    by_cases hreg : st.registered = false
    · rw [if_pos hreg] at h
      injection h with h1
      injection h1 with ha hb
      rw [← ha]
    · rw [if_neg hreg] at h
      by_cases hmax : maxRestarts ≤ st.restartCount
      · rw [if_pos hmax] at h
        injection h with h1
        injection h1 with ha hb
        rw [← ha]
      · rw [if_neg hmax] at h
        cases hrec : runMonitorLoop outcome sentinel (i + 1) f
            { st with restartCount := st.restartCount + 1 } with
        | none => rw [hrec] at h; exact absurd h (by simp)
        | some p =>
          obtain ⟨stf, evs'⟩ := p
          rw [hrec] at h
          injection h with h1
          injection h1 with ha hb
          rw [← ha]
          have := ih (i + 1) { st with restartCount := st.restartCount + 1 } stf evs' hrec
          simp at this
          omega

/-! ## Theorems for claim C1 -/

/-- Claim C1: when every open attempt fails (or every opened stream closes at
once), the monitor loop performs exactly `maxRestarts = 3` open attempts,
increments the restart counter once per failure, sleeps the 5-second backoff
after each failure (in particular between consecutive attempts), and then
tears the monitor down: it is deregistered, every observer is offered the
sentinel sample (delivered exactly when its buffer has room) and closed.  The
restart counter never decreases across the loop. -/
theorem runMonitorLoop_restart_budget :
    ∀ (outcome : Nat → AttemptOutcome) (sentinel : CustomerTrafficData)
      (obs : List ObsChan),
      runMonitorLoop outcome sentinel 0 4 ⟨true, 0, obs⟩ =
        some (⟨false, 3, obs.map (offerFinalAndClose sentinel)⟩,
          monitorIterEvents (outcome 0) ++ (monitorIterEvents (outcome 1) ++
            (monitorIterEvents (outcome 2) ++
              ([LoopEv.cancelMonitor, LoopEv.removeFromRegistry] ++
                teardownEvents sentinel obs)))) ∧
      (monitorIterEvents (outcome 0) ++ (monitorIterEvents (outcome 1) ++
          (monitorIterEvents (outcome 2) ++
            ([LoopEv.cancelMonitor, LoopEv.removeFromRegistry] ++
              teardownEvents sentinel obs)))).count LoopEv.openAttempt = 3 ∧
      (monitorIterEvents (outcome 0) ++ (monitorIterEvents (outcome 1) ++
          (monitorIterEvents (outcome 2) ++
            ([LoopEv.cancelMonitor, LoopEv.removeFromRegistry] ++
              teardownEvents sentinel obs)))).count LoopEv.restartIncr = 3 ∧
      (monitorIterEvents (outcome 0) ++ (monitorIterEvents (outcome 1) ++
          (monitorIterEvents (outcome 2) ++
            ([LoopEv.cancelMonitor, LoopEv.removeFromRegistry] ++
              teardownEvents sentinel obs)))).count
        (LoopEv.backoffSleep restartDelaySeconds) = 3 ∧
      (∀ fuel i st st' evs,
        runMonitorLoop outcome sentinel i fuel st = some (st', evs) →
        st.restartCount ≤ st'.restartCount) ∧
      (∀ c : ObsChan, c.buf.length < c.cap →
        offerFinalAndClose sentinel c =
          { c with buf := c.buf ++ [sentinel], closed := true }) ∧
      (∀ c : ObsChan, ¬ c.buf.length < c.cap →
        offerFinalAndClose sentinel c = { c with closed := true }) ∧
      (∀ c : ObsChan, (offerFinalAndClose sentinel c).closed = true) := by
  intro outcome sentinel obs
  refine ⟨?_, ?_, ?_, ?_, runMonitorLoop_mono outcome sentinel, ?_, ?_, ?_⟩
  · simp [runMonitorLoop, maxRestarts]
  · simp [List.count_append, teardownEvents_count_openAttempt,
      (monitorIterEvents_counts (outcome 0)).1,
      (monitorIterEvents_counts (outcome 1)).1,
      (monitorIterEvents_counts (outcome 2)).1]
  · simp [List.count_append, teardownEvents_count_restartIncr,
      (monitorIterEvents_counts (outcome 0)).2.1,
      (monitorIterEvents_counts (outcome 1)).2.1,
      (monitorIterEvents_counts (outcome 2)).2.1]
  · simp [List.count_append, teardownEvents_count_backoffSleep,
      (monitorIterEvents_counts (outcome 0)).2.2,
      (monitorIterEvents_counts (outcome 1)).2.2,
      (monitorIterEvents_counts (outcome 2)).2.2]
  · intro c h
    simp [offerFinalAndClose, h]
  · intro c h
    simp [offerFinalAndClose, h]
  · intro c
    by_cases h : c.buf.length < c.cap <;> simp [offerFinalAndClose, h]

/-- Witness for C1: the monotonicity conjunct applied to an already-torn-down
state, and the teardown send applied to a fresh (empty, capacity-50) observer,
which therefore receives the sentinel. -/
theorem runMonitorLoop_restart_budget_witness :
    (⟨false, 2, ([] : List ObsChan)⟩ : LoopSt).restartCount ≤
        (⟨false, 2, ([] : List ObsChan)⟩ : LoopSt).restartCount ∧
      offerFinalAndClose (disconnectSentinel ⟨"c".data, "n".data, [], [], none⟩ 9)
          (mkObserverChan 7) =
        { mkObserverChan 7 with
            buf := [disconnectSentinel ⟨"c".data, "n".data, [], [], none⟩ 9],
            closed := true } :=
  ⟨(runMonitorLoop_restart_budget (fun _ => .openFailed)
      (disconnectSentinel ⟨"c".data, "n".data, [], [], none⟩ 9) []).2.2.2.2.1
      1 0 ⟨false, 2, []⟩ ⟨false, 2, []⟩ [] rfl,
    (runMonitorLoop_restart_budget (fun _ => .openFailed)
      (disconnectSentinel ⟨"c".data, "n".data, [], [], none⟩ 9) []).2.2.2.2.2.1
      (mkObserverChan 7) (by decide)⟩

/-! ## Monitor registry (part_006, `StartMonitoring` / `StopMonitoring` /
`addObserver`), specialised to one resource key -/

/-- The registry entry for the key (`CustomerMonitor`, part_006 lines 32-39):
the viewer ref-count, the attached observer channels (by id), and the restart
counter. -/
structure MonitorRC where
  clients : Int
  observers : List Nat
  restartCount : Nat
deriving DecidableEq, Repr

/-- The service state restricted to one key: whether `monitorLocks` has an
entry for the key, the `activeMonitors` entry, and the channels closed so
far. -/
structure SvcState where
  lockExists : Bool
  monitor : Option MonitorRC
  closedObs : List Nat
deriving DecidableEq, Repr

/-- A fresh service (`NewOnDemandTrafficService`, part_006 lines 42-54): empty
maps. -/
def initialSvcState : SvcState := ⟨false, none, []⟩

/-- Observable side effect of `StartMonitoring`: launching the background
monitor goroutine. -/
inductive SvcEv where
  | monitorLoopStarted (iface : List Char)
deriving DecidableEq, Repr

/-- `StartMonitoring` (part_006 lines 57-127) with `addObserver` (lines
332-358) inlined, for a single key.  `res` is the outcome of the resolution
pipeline (`GetCustomerByID` + username validation +
`getActiveInterfaceForCustomer`); `oid` names the fresh channel made by
`addObserver`.  The per-key lock entry is created unconditionally; an existing
monitor gets its ref-count incremented and a new observer attached; otherwise
a failing resolution returns the error with nothing else done, and a
successful one creates the monitor with ref-count 1, attaches the observer,
and launches the background loop. -/
def startMonitoring (res : Except ResErr (List Char)) (oid : Nat)
    (st : SvcState) : SvcState × Except ResErr Unit × List SvcEv :=
  let st1 : SvcState := { st with lockExists := true }
  match st1.monitor with
  | some m =>
    ({ st1 with
        monitor := some { m with
          clients := m.clients + 1,
          observers := m.observers ++ [oid] } },
      .ok (), [])
  | none =>
    match res with
    | .error e => (st1, .error e, [])
    | .ok iface =>
      ({ st1 with monitor := some ⟨1, [oid], 0⟩ }, .ok (),
        [SvcEv.monitorLoopStarted iface])

/-- `StopMonitoring` (part_006 lines 187-223): a missing lock entry or a
missing monitor is a no-op; otherwise the ref-count is decremented and, at
zero or below, the monitor is cancelled, removed, and all its remaining
observer channels are closed. -/
def stopMonitoring (st : SvcState) : SvcState :=
  if st.lockExists = false then st
  else
    match st.monitor with
    | none => st
    | some m =>
      if m.clients - 1 ≤ 0 then
        { st with monitor := none, closedObs := st.closedObs ++ m.observers }
      else
        { st with monitor := some { m with clients := m.clients - 1 } }

/-- The cleanup goroutine installed by `addObserver` (part_006 lines 347-355),
run when the subscriber's context ends: when the monitor still exists, its
channel is detached and closed. -/
def observerCtxCleanup (oid : Nat) (st : SvcState) : SvcState :=
  match st.monitor with
  | none => st
  | some m =>
    { st with
        monitor := some { m with observers := m.observers.erase oid },
        closedObs := st.closedObs ++ [oid] }

/-- A viewer departing (part_005 `StreamCustomerTraffic`): the handler's
deferred `StopMonitoring` runs first, then the request context ends and the
`addObserver` cleanup fires. -/
def unsubscribe (oid : Nat) (st : SvcState) : SvcState :=
  observerCtxCleanup oid (stopMonitoring st)

/-- An operation of the subscribe/unsubscribe workload on the key. -/
inductive SvcOp where
  | sub (oid : Nat)
  | unsub (oid : Nat)
deriving DecidableEq, Repr

/-- The interface name used for successful resolutions in workloads. -/
def defaultIface : List Char := "<pppoe-user1>".data

/-- Apply one workload operation (resolution succeeds on subscribes). -/
def applyOp (st : SvcState) : SvcOp → SvcState
  | .sub oid => (startMonitoring (.ok defaultIface) oid st).1
  | .unsub oid => unsubscribe oid st

/-- Apply a workload sequence left to right. -/
def applySeq (st : SvcState) : List SvcOp → SvcState
  | [] => st
  | op :: rest => applySeq (applyOp st op) rest

/-- Number of Subscribe calls in a workload. -/
def numSub (ops : List SvcOp) : Nat :=
  ops.countP (fun op => match op with | .sub _ => true | .unsub _ => false)

/-- Number of Unsubscribe calls in a workload. -/
def numUnsub (ops : List SvcOp) : Nat :=
  ops.countP (fun op => match op with | .sub _ => false | .unsub _ => true)

/-- Observers currently attached to the key's monitor. -/
def obsCount (st : SvcState) : Nat :=
  match st.monitor with
  | none => 0
  | some m => m.observers.length

/-- Whether a monitor for the key is in the registry. -/
def monitorAlive (st : SvcState) : Bool := st.monitor.isSome

/-- Claim C4 as frozen, formalized: any workload of N subscribes and M
unsubscribes with N ≥ M leaves exactly N−M observers attached, and a monitor
exists iff N > M. -/
def refcountClaim (ops : List SvcOp) : Prop :=
  numUnsub ops ≤ numSub ops →
    obsCount (applySeq initialSvcState ops) = numSub ops - numUnsub ops ∧
      (monitorAlive (applySeq initialSvcState ops) = true ↔
        numUnsub ops < numSub ops)

/-- Well-formed workload: every unsubscribe targets a currently attached
observer (a viewer departs only after subscribing, and at most once). -/
def wfOps : List Nat → List SvcOp → Bool
  | _, [] => true
  | active, SvcOp.sub o :: rest => wfOps (o :: active) rest
  | active, SvcOp.unsub o :: rest =>
    active.contains o && wfOps (active.erase o) rest

/-- The observer ids attached after a workload, tracked abstractly. -/
def finalActive : List Nat → List SvcOp → List Nat
  | active, [] => active
  | active, SvcOp.sub o :: rest => finalActive (o :: active) rest
  | active, SvcOp.unsub o :: rest => finalActive (active.erase o) rest

/-- Registry invariant tying the service state to the abstract attached set:
no monitor exactly when nothing is attached; otherwise the monitor's observer
set is a permutation of the attached set, its ref-count equals its size, and
the per-key lock exists. -/
def RegInv (st : SvcState) (active : List Nat) : Prop :=
  match st.monitor with
  | none => active = []
  | some m =>
    m.observers.Perm active ∧ m.clients = (active.length : Int) ∧
      active ≠ [] ∧ st.lockExists = true

lemma wfOps_finalActive_length :
    ∀ (ops : List SvcOp) (active : List Nat), wfOps active ops = true →
      (finalActive active ops).length + numUnsub ops =
        active.length + numSub ops := by
  intro ops
  induction ops with
  | nil =>
    intro active _
    simp [finalActive, numSub, numUnsub]
  | cons op rest ih =>
    intro active h
    cases op with
    | sub o =>
      have h' : wfOps (o :: active) rest = true := by simpa [wfOps] using h
      have := ih (o :: active) h'
      simp [finalActive, numSub, numUnsub, List.countP_cons] at this ⊢
      omega
    | unsub o =>
      rw [wfOps, Bool.and_eq_true] at h
      have hmem : o ∈ active := List.mem_of_elem_eq_true h.1
      have hrec := ih (active.erase o) h.2
      have hlen := List.length_erase_of_mem hmem
      have hpos : 0 < active.length :=
        List.length_pos.mpr (fun hnil => by simp [hnil] at hmem)
      simp [finalActive, numSub, numUnsub, List.countP_cons] at hrec ⊢
      omega

lemma applySeq_RegInv :
    ∀ (ops : List SvcOp) (active : List Nat) (st : SvcState),
      wfOps active ops = true → RegInv st active →
      RegInv (applySeq st ops) (finalActive active ops) := by
  intro ops
  induction ops with
  | nil =>
    intro active st _ hinv
    simpa [applySeq, finalActive] using hinv
  | cons op rest ih =>
    intro active st h hinv
    cases op with
    | sub o =>
      have h' : wfOps (o :: active) rest = true := by simpa [wfOps] using h
      rw [show applySeq st (SvcOp.sub o :: rest) =
        applySeq (applyOp st (SvcOp.sub o)) rest from rfl]
      rw [show finalActive active (SvcOp.sub o :: rest) =
        finalActive (o :: active) rest from rfl]
      refine ih (o :: active) _ h' ?_
      cases hm : st.monitor with
      | none =>
        have ha : active = [] := by simpa [RegInv, hm] using hinv
        subst ha
        simp [applyOp, startMonitoring, RegInv, hm]
      | some m =>
        have hinv' := hinv
        rw [RegInv, hm] at hinv'
        obtain ⟨hperm, hcl, hne, hlock⟩ := hinv'
        have happ : applyOp st (SvcOp.sub o) =
            { st with
                lockExists := true,
                monitor := some { m with
                  clients := m.clients + 1,
                  observers := m.observers ++ [o] } } := by
          simp [applyOp, startMonitoring, hm]
        rw [happ, RegInv]
        refine ⟨?_, ?_, by simp, rfl⟩
        · exact (List.perm_append_singleton o m.observers).trans (hperm.cons o)
        · rw [hcl]
          push_cast
          ring_nf
          simp [add_comm]
    | unsub o =>
      rw [wfOps, Bool.and_eq_true] at h
      have hmem : o ∈ active := List.mem_of_elem_eq_true h.1
      rw [show applySeq st (SvcOp.unsub o :: rest) =
        applySeq (applyOp st (SvcOp.unsub o)) rest from rfl]
      rw [show finalActive active (SvcOp.unsub o :: rest) =
        finalActive (active.erase o) rest from rfl]
      refine ih (active.erase o) _ h.2 ?_
      cases hm : st.monitor with
      | none =>
        have ha : active = [] := by simpa [RegInv, hm] using hinv
        rw [ha] at hmem
        simp at hmem
      | some m =>
        have hinv' := hinv
        rw [RegInv, hm] at hinv'
        obtain ⟨hperm, hcl, hne, hlock⟩ := hinv'
        have hpos : 0 < active.length :=
          List.length_pos.mpr (fun hnil => by simp [hnil] at hmem)
        by_cases hone : active.length = 1
        · obtain ⟨a, ha⟩ := List.length_eq_one.mp hone
          have hao : a = o := by
            rw [ha] at hmem
            have : o = a := by simpa using hmem
            exact this.symm
          rw [hao] at ha
          have hdone : m.clients - 1 ≤ 0 := by
            rw [hcl, hone]
            omega
          have happ : applyOp st (SvcOp.unsub o) =
              { st with
                  monitor := none,
                  closedObs := st.closedObs ++ m.observers } := by
            simp [applyOp, unsubscribe, stopMonitoring, observerCtxCleanup,
              hm, hlock, hdone]
          rw [happ, RegInv]
          simp [ha]
        · have htwo : 2 ≤ active.length := by omega
          have hnotdone : ¬ m.clients - 1 ≤ 0 := by
            rw [hcl]
            have : (2 : Int) ≤ (active.length : Int) := by exact_mod_cast htwo
            omega
          have happ : applyOp st (SvcOp.unsub o) =
              { st with
                  monitor := some { m with
                    clients := m.clients - 1,
                    observers := m.observers.erase o },
                  closedObs := st.closedObs ++ [o] } := by
            simp [applyOp, unsubscribe, stopMonitoring, observerCtxCleanup,
              hm, hlock, hnotdone]
          rw [happ, RegInv]
          have herase : (active.erase o).length = active.length - 1 :=
            List.length_erase_of_mem hmem
          refine ⟨hperm.erase o, ?_, ?_, hlock⟩
          · rw [hcl, herase]
            have : (1 : Nat) ≤ active.length := by omega
            push_cast [herase]
            omega
          · intro hnil
            have := congrArg List.length hnil
            rw [herase] at this
            simp at this
            omega

/-! ## Theorems for claim C4 -/

/-- Claim C4 counterexample: the workload Subscribe, Unsubscribe, Unsubscribe,
Subscribe has N = M = 2, yet leaves a live monitor with one attached observer
(the second Unsubscribe is a no-op because no monitor exists at that point, so
the final Subscribe recreates one). -/
theorem refcountClaim_false :
    ¬ refcountClaim [SvcOp.sub 0, SvcOp.unsub 0, SvcOp.unsub 1, SvcOp.sub 1] := by
  unfold refcountClaim
  decide

/-- Claim C4 amended: for every workload of N Subscribe and M Unsubscribe
calls in which each Unsubscribe targets a currently attached observer (a
viewer departs only after subscribing, and at most once), exactly N−M
observer channels remain attached afterwards, and a monitor for the key is in
the registry iff N > M. -/
theorem refcount_invariant_wf :
    ∀ ops : List SvcOp, wfOps [] ops = true →
      obsCount (applySeq initialSvcState ops) = numSub ops - numUnsub ops ∧
        (monitorAlive (applySeq initialSvcState ops) = true ↔
          numUnsub ops < numSub ops) := by
  intro ops h
  have hinv := applySeq_RegInv ops [] initialSvcState h
    (by rw [RegInv]; simp [initialSvcState])
  have hlen := wfOps_finalActive_length ops [] h
  simp at hlen
  cases hm : (applySeq initialSvcState ops).monitor with
  | none =>
    have ha : finalActive [] ops = [] := by
      rw [RegInv, hm] at hinv
      exact hinv
    rw [ha] at hlen
    simp at hlen
    constructor
    · simp [obsCount, hm]
      omega
    · simp [monitorAlive, hm]
      omega
  | some m =>
    rw [RegInv, hm] at hinv
    obtain ⟨hperm, hcl, hne, -⟩ := hinv
    have hlenobs : m.observers.length = (finalActive [] ops).length :=
      hperm.length_eq
    have hposlen : 0 < (finalActive [] ops).length :=
      List.length_pos.mpr hne
    constructor
    · simp [obsCount, hm, hlenobs]
      omega
    · simp [monitorAlive, hm]
      omega

/-- Witness for C4's amended theorem: the well-formed workload Subscribe 0,
Subscribe 1, Unsubscribe 0 leaves one attached observer and a live monitor. -/
theorem refcount_invariant_wf_witness :
    obsCount (applySeq initialSvcState
        [SvcOp.sub 0, SvcOp.sub 1, SvcOp.unsub 0]) =
      numSub [SvcOp.sub 0, SvcOp.sub 1, SvcOp.unsub 0] -
        numUnsub [SvcOp.sub 0, SvcOp.sub 1, SvcOp.unsub 0] ∧
    (monitorAlive (applySeq initialSvcState
        [SvcOp.sub 0, SvcOp.sub 1, SvcOp.unsub 0]) = true ↔
      numUnsub [SvcOp.sub 0, SvcOp.sub 1, SvcOp.unsub 0] <
        numSub [SvcOp.sub 0, SvcOp.sub 1, SvcOp.unsub 0]) :=
  refcount_invariant_wf [SvcOp.sub 0, SvcOp.sub 1, SvcOp.unsub 0] (by decide)

/-! ## Theorems for claim C5 -/

/-- Claim C5: when no monitor is running for the key and resolution fails
(unknown customer, missing or empty PPPoE username, or no active PPPoE
session), `StartMonitoring` returns the error synchronously: no monitor is
registered, no observer channel is created, no channel is closed, and no
background stream is started (only the per-key lock entry is created).  The
enumerated failure modes all surface as resolution errors. -/
theorem startMonitoring_resolution_failure :
    (∀ (st : SvcState) (oid : Nat) (cust : Option Customer)
        (reply : Except Unit (List RMap)) (e : ResErr),
      st.monitor = none →
      resolveCustomerInterface cust reply = .error e →
      startMonitoring (resolveCustomerInterface cust reply) oid st =
        ({ st with lockExists := true }, .error e, [])) ∧
    (∀ reply, resolveCustomerInterface none reply =
      .error ResErr.customerNotFound) ∧
    (∀ (c : Customer) reply, c.pppoeUsername = none →
      resolveCustomerInterface (some c) reply = .error ResErr.noPPPoEUsername) ∧
    (∀ (c : Customer) reply, c.pppoeUsername = some [] →
      resolveCustomerInterface (some c) reply = .error ResErr.noPPPoEUsername) ∧
    (∀ (c : Customer) (u : List Char) (res : List RMap),
      c.pppoeUsername = some u → u ≠ [] →
      findInterface (toLowerChars (trimSpaceChars u)) res = none →
      resolveCustomerInterface (some c) (.ok res) =
        .error ResErr.noActiveSession) := by
  refine ⟨?_, ?_, ?_, ?_, ?_⟩
  · intro st oid cust reply e hmon hres
    rw [hres]
    simp [startMonitoring, hmon]
  · intro reply
    rfl
  · intro c reply hu
    simp [resolveCustomerInterface, hu]
  · intro c reply hu
    simp [resolveCustomerInterface, hu]
  · intro c u res hu hne hfind
    simp [resolveCustomerInterface, hu, hne, getActiveInterfaceForCustomer, hfind]

/-- Witness for C5: subscribing to an unknown customer on a fresh service
fails with `customerNotFound` and leaves the registry empty. -/
theorem startMonitoring_resolution_failure_witness :
    startMonitoring (resolveCustomerInterface none (.ok [])) 0 initialSvcState =
      ({ initialSvcState with lockExists := true },
        .error ResErr.customerNotFound, []) :=
  startMonitoring_resolution_failure.1 initialSvcState 0 none (.ok [])
    ResErr.customerNotFound rfl rfl

/-! ## Diagnostic ping session (src/unnamed/part_000 `StreamPing`,
src/internal/handlers/ping_handler.go `PingCustomerStream`) -/

/-- `PingResponse` (part_000 lines 8-22). -/
structure PingResponse where
  seq : List Char
  host : List Char
  size : List Char
  ttl : List Char
  time : List Char
  status : List Char
  sent : List Char
  received : List Char
  packetLoss : List Char
  avgRtt : List Char
  minRtt : List Char
  maxRtt : List Char
  isSummary : Bool
deriving DecidableEq, Repr

/-- `mapToPingResponse` (part_000 lines 84-109): a packet with no `seq` but a
`sent` field is flagged as a summary packet. -/
def mapToPingResponse (m : RMap) : PingResponse where
  seq := lookupD m "seq".data
  host := lookupD m "host".data
  size := lookupD m "size".data
  ttl := lookupD m "ttl".data
  time := lookupD m "time".data
  status := lookupD m "status".data
  sent := lookupD m "sent".data
  received := lookupD m "received".data
  packetLoss := lookupD m "packet-loss".data
  avgRtt := lookupD m "avg-rtt".data
  minRtt := lookupD m "min-rtt".data
  maxRtt := lookupD m "max-rtt".data
  isSummary :=
    match lookupOpt m "seq".data with
    | some _ => false
    | none =>
      match lookupOpt m "sent".data with
      | some _ => true
      | none => false

/-- The per-result tally step of the handler loop (ping_handler.go lines
167-176): a result with a sequence number counts as sent; it additionally
counts as received when it carries a `received` field, or an empty status, or
a timing value. -/
def pingTallyStep (acc : Nat × Nat) (p : PingResponse) : Nat × Nat :=
  if p.seq ≠ [] then
    (acc.1 + 1,
      if p.received ≠ [] then acc.2 + 1
      else if p.status = [] ∨ p.time ≠ [] then acc.2 + 1
      else acc.2)
  else acc

/-- The (sent, received) tallies over a finished probe stream. -/
def pingTally (resps : List PingResponse) : Nat × Nat :=
  resps.foldl pingTallyStep (0, 0)

/-- Rounding to the nearest integer, ties to even: the behaviour of Go's
`fmt.Sprintf("%.0f", ...)` on the loss percentage. -/
def roundHalfEven (num den : Nat) : Nat :=
  let q := num / den
  let r := num % den
  if 2 * r < den then q
  else if den < 2 * r then q + 1
  else if q % 2 = 0 then q else q + 1

/-- The loss percentage of the summary (ping_handler.go lines 188-192):
`100` when nothing was sent, otherwise `(sent-received)/sent*100` rounded to a
whole percent. -/
def pingLossPercent (sent received : Nat) : Nat :=
  if sent = 0 then 100 else roundHalfEven ((sent - received) * 100) sent

/-- The summary emitted at stream end (ping_handler.go lines 194-203). -/
def pingSessionSummary (resps : List PingResponse) : Nat × Nat × Nat :=
  let t := pingTally resps
  (t.1, t.2, pingLossPercent t.1 t.2)

/-- A message written to the viewer connection. -/
inductive PingOut where
  | update (p : PingResponse)
  | summaryMsg (sent received lossPercent : Nat)
deriving DecidableEq, Repr

/-- The full output of the streaming handler over a finite probe stream: one
update per result, then exactly one summary. -/
def pingSessionOutputs (resps : List PingResponse) : List PingOut :=
  resps.map PingOut.update ++
    [PingOut.summaryMsg (pingSessionSummary resps).1
      (pingSessionSummary resps).2.1 (pingSessionSummary resps).2.2]

/-- The claim-side counting predicate for sent results. -/
def sentCond (p : PingResponse) : Bool := decide (p.seq ≠ [])

/-- The code's counting predicate for received results. -/
def recvCond (p : PingResponse) : Bool :=
  decide (p.seq ≠ [] ∧ (p.received ≠ [] ∨ p.status = [] ∨ p.time ≠ []))

lemma pingTallyStep_eq (acc : Nat × Nat) (p : PingResponse) :
    pingTallyStep acc p =
      (acc.1 + (if sentCond p then 1 else 0),
        acc.2 + (if recvCond p then 1 else 0)) := by
  by_cases h1 : p.seq = [] <;> by_cases h2 : p.received = [] <;>
    by_cases h3 : p.status = [] <;> by_cases h4 : p.time = [] <;>
    simp [pingTallyStep, sentCond, recvCond, h1, h2, h3, h4]

lemma pingTally_fold :
    ∀ (resps : List PingResponse) (a b : Nat),
      resps.foldl pingTallyStep (a, b) =
        (a + resps.countP sentCond, b + resps.countP recvCond) := by
  intro resps
  induction resps with
  | nil => intro a b; simp
  | cons p rest ih =>
    intro a b
    rw [List.foldl_cons, pingTallyStep_eq]
    rw [ih]
    by_cases hs : sentCond p = true <;> by_cases hr : recvCond p = true <;>
      simp [List.countP_cons, hs, hr] <;> omega

/-- A successful probe result: carries a sequence number and a timing value. -/
def probeOk : PingResponse :=
  ⟨"1".data, [], [], [], "10ms".data, [], [], [], [], [], [], [], false⟩

/-- A timed-out probe result: carries a sequence number, no timing value, and
a `"timeout"` status. -/
def probeTimeout : PingResponse :=
  ⟨"2".data, [], [], [], [], "timeout".data, [], [], [], [], [], [], false⟩

/-- The synthetic probe sequence of the claim: 10 results, 7 carrying a timing
value. -/
def demoProbeSequence : List PingResponse :=
  List.replicate 7 probeOk ++ List.replicate 3 probeTimeout

/-! ## Theorems for claim C8 -/

/-- Claim C8: over a finite probe stream, the sent tally counts exactly the
results carrying a sequence number; the received tally counts exactly those
additionally accepted by the code's receive test, which holds in particular
for every sent result with a timing value or an empty status; the single
summary is emitted exactly once at stream end and carries the tallies and the
rounded loss percentage, with 100 when nothing was sent; on the synthetic
sequence of 10 results of which 7 carry a timing value the summary is
sent = 10, received = 7, loss = 30. -/
theorem pingSummary_tallies :
    (∀ resps, (pingTally resps).1 = resps.countP sentCond) ∧
    (∀ resps, (pingTally resps).2 = resps.countP recvCond) ∧
    (∀ p : PingResponse, p.seq ≠ [] → (p.time ≠ [] ∨ p.status = []) →
      recvCond p = true) ∧
    (∀ resps, (pingSessionOutputs resps).countP
      (fun o => match o with | .summaryMsg _ _ _ => true | .update _ => false) = 1) ∧
    (∀ resps, PingOut.summaryMsg (pingTally resps).1 (pingTally resps).2
        (pingLossPercent (pingTally resps).1 (pingTally resps).2) ∈
      pingSessionOutputs resps) ∧
    (∀ r, pingLossPercent 0 r = 100) ∧
    pingSessionSummary demoProbeSequence = (10, 7, 30) := by
  refine ⟨?_, ?_, ?_, ?_, ?_, ?_, ?_⟩
  · intro resps
    rw [pingTally, pingTally_fold]
    simp
  · intro resps
    rw [pingTally, pingTally_fold]
    simp
  · intro p hseq hrec
    rw [recvCond]
    rcases hrec with h | h <;> simp [hseq, h]
  · intro resps
    rw [pingSessionOutputs, List.countP_append, List.countP_map]
    simp [Function.comp_def]
  · intro resps
    rw [pingSessionOutputs]
    simp [pingSessionSummary]
  · intro r
    rfl
  · decide

/-- Witness for C8: a result with a sequence number and a timing value counts
as received. -/
theorem pingSummary_tallies_witness : recvCond probeOk = true :=
  pingSummary_tallies.2.2.1 probeOk (by decide) (Or.inl (by decide))
